import Mathlib

/-!
# Verification of the clips-ai video-processing pipeline

Shallow embedding of the core logic of the `clips-ai` repository:

* `src/core/utils/gemini_analyzer.py` — score→grade table, candidate-moment
  validation, fallback-moment synthesis (`GeminiAnalyzer`);
* `src/core/utils/processor.py` — the pipeline orchestrator
  (`VideoProcessor.process_video`), with the four leaf capabilities
  (transcript fetch, model analysis, media download, ffmpeg clip creation)
  modelled as oracles supplying their outcomes;
* `src/core/views.py` — job submission validation, background worker
  persistence, results analytics, clip download.

Python floats are modelled as rationals (`ℚ`); Python dictionaries whose
key set matters are modelled as association lists over a small value type.
-/

namespace ClipsAI

/-! ## Data model (src/core/utils/gemini_analyzer.py, src/core/models.py)

A candidate "viral moment" as parsed from the model output: every field is
optional, mirroring Python `dict.get` with defaults during validation. -/

structure Moment where
  start_timestamp : Option ℚ
  end_timestamp : Option ℚ
  virality_score : Option ℚ
  grade : Option String
  justification : Option String
  emotional_keywords : Option (List String)
  urgency_indicators : Option (List String)
deriving DecidableEq

/-- A validated moment: output shape of `GeminiAnalyzer._validate_viral_moments`
(all keys present). -/
structure VMoment where
  start_timestamp : ℚ
  end_timestamp : ℚ
  virality_score : ℚ
  grade : String
  justification : String
  emotional_keywords : List String
  urgency_indicators : List String
deriving DecidableEq

/-- A transcript segment (`{start, text}`) as produced by the Apify client. -/
structure Segment where
  start : ℚ
  text : String
deriving DecidableEq

/-- The transcript dictionary consumed by analyzer and processor. -/
structure TranscriptData where
  title : String
  duration : ℚ
  video_id : String
  transcript : List Segment
deriving DecidableEq

/-! ## GeminiAnalyzer.convert_score_to_grade (gemini_analyzer.py lines 245-270) -/

def convert_score_to_grade (score : ℚ) : String :=
  if score ≥ 97/100 then "A+"
  else if score ≥ 93/100 then "A"
  else if score ≥ 90/100 then "A-"
  else if score ≥ 87/100 then "B+"
  else if score ≥ 83/100 then "B"
  else if score ≥ 80/100 then "B-"
  else if score ≥ 77/100 then "C+"
  else if score ≥ 73/100 then "C"
  else if score ≥ 70/100 then "C-"
  else if score ≥ 65/100 then "D+"
  else if score ≥ 60/100 then "D"
  else "F"

/-- The spec's score→grade table (§4.2), as a threshold/grade list in the
top-down order given by the spec. -/
def gradeTable : List (ℚ × String) :=
  [(97/100, "A+"), (93/100, "A"), (90/100, "A-"),
   (87/100, "B+"), (83/100, "B"), (80/100, "B-"),
   (77/100, "C+"), (73/100, "C"), (70/100, "C-"),
   (65/100, "D+"), (60/100, "D")]

/-- Modelled from the spec: "Score→grade table (strict thresholds, apply
top-down, first match wins)" — first table row whose threshold the score
meets, else `F`. -/
def specGrade (s : ℚ) : String :=
  match gradeTable.find? (fun p => decide (p.1 ≤ s)) with
  | some p => p.2
  | none => "F"

/-- Rank of a letter grade (higher = better), for stating grade monotonicity. -/
def gradeRank : String → ℕ
  | "A+" => 11
  | "A" => 10
  | "A-" => 9
  | "B+" => 8
  | "B" => 7
  | "B-" => 6
  | "C+" => 5
  | "C" => 4
  | "C-" => 3
  | "D+" => 2
  | "D" => 1
  | _ => 0

/-! ## GeminiAnalyzer._validate_viral_moments (gemini_analyzer.py lines 206-243) -/

/-- Validation of a single moment (loop body of `_validate_viral_moments`).
Note the source first reads `end_timestamp` (default 30) and then overwrites
it with `min(total_duration, start_time + 30)`; the clamp bound 30 is
hard-coded, independent of the requested clip duration. -/
def validate_one (m : Moment) (total_duration : ℚ) : VMoment :=
  let start_time := m.start_timestamp.getD 0
  let end_time := m.end_timestamp.getD 30
  let start_time := max 0 (min start_time (total_duration - 30))
  let end_time := min total_duration (start_time + 30)
  let score := m.virality_score.getD (7/10)
  let score := max 0 (min 1 score)
  { start_timestamp := start_time
    end_timestamp := end_time
    virality_score := score
    grade := m.grade.getD (convert_score_to_grade score)
    justification := m.justification.getD "Viral potential detected"
    emotional_keywords := m.emotional_keywords.getD ["engaging"]
    urgency_indicators := m.urgency_indicators.getD ["interesting"] }

/-- Stable insertion of a moment into a list sorted by score descending:
the element goes after every element with a strictly greater score and
before the first element whose score is not greater. -/
def insertDesc (x : VMoment) : List VMoment → List VMoment
  | [] => [x]
  | y :: ys => if x.virality_score < y.virality_score then y :: insertDesc x ys
               else x :: y :: ys

/-- Stable sort by `virality_score` descending, modelling Python's stable
`list.sort(key=lambda x: x['virality_score'], reverse=True)`. -/
def sortDesc : List VMoment → List VMoment
  | [] => []
  | x :: xs => insertDesc x (sortDesc xs)

def _validate_viral_moments (viral_moments : List Moment) (total_duration : ℚ) :
    List VMoment :=
  let validated := viral_moments.map (fun m => validate_one m total_duration)
  (sortDesc validated).take 5

/-! ## GeminiAnalyzer._create_fallback_moments (gemini_analyzer.py lines 272-304) -/

/-- One iteration of the fallback loop: given the position index `i` and the
computed `start_time`, build the moment provided `end_time > start_time`
(otherwise the candidate is not appended). -/
def fallbackMoment (total_duration clip_duration : ℚ) (i : ℕ) (position : String)
    (start_time : ℚ) : Option Moment :=
  let end_time := min total_duration (start_time + clip_duration)
  if start_time < end_time then
    some { start_timestamp := some start_time
           end_timestamp := some end_time
           virality_score := some (7/10 - i * (1/10))
           grade := some "B"
           justification := some ("Fallback clip from " ++ position ++ " of video")
           emotional_keywords := some ["engaging", "content"]
           urgency_indicators := some ["interesting", "moment"] }
  else none

def _create_fallback_moments (transcript_data : TranscriptData)
    (clip_duration : ℚ) : List Moment :=
  if transcript_data.transcript.isEmpty then []
  else
    let total_duration := transcript_data.duration
    List.filterMap (fun p => fallbackMoment total_duration clip_duration p.1 p.2.1 p.2.2)
      [(0, "beginning", max 0 10),
       (1, "middle", max 0 (total_duration / 2 - clip_duration / 2)),
       (2, "end", max 0 (total_duration - clip_duration - 10))]

/-- The tail of `GeminiAnalyzer.extract_viral_moments` (lines 167-186) on the
path where all parsing stages yielded zero candidates: synthesize fallback
moments, then validate. -/
def extract_fallback_path (transcript_data : TranscriptData)
    (clip_duration : ℚ) : List VMoment :=
  _validate_viral_moments (_create_fallback_moments transcript_data clip_duration)
    transcript_data.duration

/-! ## VideoProcessor.process_video (src/core/utils/processor.py)

The four leaf capabilities are unreliable external collaborators; the
orchestrator treats them as black boxes, so they are modelled as oracles in
`PipelineEnv` supplying each call's outcome (`Except.error` = the client
raised). The run is deterministic given the oracle outcomes. External
observable actions are recorded as a list of `Call`s in program order. -/

/-- The dictionary returned by `FFmpegClipProcessor.create_clip`
(ffmpeg_processor.py lines 175-199). Note that on failure `create_clip`
does not raise: it returns a dict with `success = False` and an `error`
key, and with no `output_path` key (so `.get('output_path')` is `None`). -/
structure ClipResultDict where
  success : Bool
  output_path : Option String
  output_filename : Option String
  file_size : Option ℤ
  resolution : Option String
  error : Option String
deriving DecidableEq

/-- The per-clip record appended to `clips_data` by the orchestrator
(processor.py lines 204-221). Wall-clock fields (`creation_time`,
`created_at`) are not modelled. -/
structure ClipData where
  rank : ℕ
  start_timestamp : ℚ
  end_timestamp : ℚ
  duration : ℚ
  virality_score : ℚ
  grade : String
  justification : String
  emotional_keywords : List String
  urgency_indicators : List String
  output_path : Option String
  clip_filename : Option String
  file_size : Option ℤ
  resolution : Option String
deriving DecidableEq

/-- `video_info` of the success result (processor.py lines 258-264);
`file_size` is elided (set from a local-filesystem probe). -/
structure VideoInfo where
  title : String
  duration : ℚ
  video_id : String
  transcript_length : ℕ
deriving DecidableEq

/-- Count-or-insert update of a grade-count association list, preserving
first-seen key order (Python dict insertion-order semantics). -/
def bumpCount : List (String × ℕ) → String → List (String × ℕ)
  | [], g => [(g, 1)]
  | p :: rest, g => if p.1 = g then (p.1, p.2 + 1) :: rest else p :: bumpCount rest g

/-- `VideoProcessor._calculate_grade_distribution` (processor.py lines 319-325). -/
def _calculate_grade_distribution (clips_data : List ClipData) : List (String × ℕ) :=
  clips_data.foldl (fun d c => bumpCount d c.grade) []

/-- `processing_stats` of the success result (processor.py lines 241-252);
timing fields are not modelled. -/
structure ProcessingStats where
  avg_virality_score : ℚ
  top_grade : String
  grade_distribution : List (String × ℕ)
  clips_created : ℕ
  clips_attempted : ℕ
deriving DecidableEq

/-- The dictionary returned by `VideoProcessor.process_video`: `clips`,
`total_clips`, `video_info`, `processing_stats` are present only in the
success dict, `step_failed` only in the failure dict. -/
structure ProcessResult where
  success : Bool
  error : Option String
  step_failed : Option String
  youtube_url : String
  clip_duration : ℤ
  clips : Option (List ClipData)
  total_clips : Option ℕ
  video_info : Option VideoInfo
  processing_stats : Option ProcessingStats
deriving DecidableEq

/-- Externally observable actions of one orchestrator run.
`deleteClipFile` is never emitted by the embedding because
`process_video` contains no deletion of rendered clip files (its
`finally` block explicitly keeps `clip_files`); the constructor exists so
that this absence is expressible. -/
inductive Call where
  | ffmpegCheck
  | transcriptFetch
  | viralAnalysis
  | videoDownload
  | createClip (idx : ℕ)
  | cleanupVideoFile (path : String)
  | deleteClipFile (path : String)
deriving DecidableEq

/-- Oracle outcomes for the leaf capabilities used by one run.
`transcript_result = .ok none` models `fetch_transcript` returning a falsy
(empty) dict, which the orchestrator checks for separately. -/
structure PipelineEnv where
  ffmpeg_available : Bool
  transcript_result : Except String (Option TranscriptData)
  analysis_result : Except String (List VMoment)
  download_result : Except String String
  file_exists : String → Bool
  clip_result : ℕ → ClipResultDict

def gcsPrefix : String := "https://storage.googleapis.com"

/-- The `finally` block of `process_video` (processor.py lines 293-313):
if a video file path was assigned, `yt_downloader.cleanup_file` is invoked
when the path is a GCS URL or the local file exists; exceptions from the
cleanup itself are swallowed. Clip files are kept. -/
def finallyCalls (env : PipelineEnv) : Option String → List Call
  | none => []
  | some p =>
    if p.startsWith gcsPrefix then [Call.cleanupVideoFile p]
    else if env.file_exists p then [Call.cleanupVideoFile p]
    else []

/-- The failure dictionary built by the `except` block of `process_video`
(processor.py lines 279-291). -/
def failureResult (youtube_url : String) (clip_duration : ℤ)
    (step msg : String) : ProcessResult :=
  { success := false
    error := some ("Processing failed at step " ++ step ++ ": " ++ msg)
    step_failed := some step
    youtube_url := youtube_url
    clip_duration := clip_duration
    clips := none
    total_clips := none
    video_info := none
    processing_stats := none }

/-- The clip-creation loop (processor.py lines 179-228), with `idx` the
0-based `enumerate` index. `create_clip` never raises (it returns an error
dict instead, see `ClipResultDict`), and every moment of the validated
list has all keys, so the `except: continue` branch of the loop body is
unreachable: a `ClipData` record is appended for every moment, and the
output path is appended to `clip_files` only when present. -/
def clip_creation_loop (env : PipelineEnv) :
    ℕ → List VMoment → List ClipData × List String × List Call
  | _, [] => ([], [], [])
  | idx, m :: rest =>
    let grade := m.grade
    let r := env.clip_result idx
    let cd : ClipData :=
      { rank := idx + 1
        start_timestamp := m.start_timestamp
        end_timestamp := m.end_timestamp
        duration := m.end_timestamp - m.start_timestamp
        virality_score := m.virality_score
        grade := grade
        justification := m.justification
        emotional_keywords := m.emotional_keywords
        urgency_indicators := m.urgency_indicators
        output_path := r.output_path
        clip_filename := r.output_filename
        file_size := r.file_size
        resolution := r.resolution }
    let (cds, files, calls) := clip_creation_loop env (idx + 1) rest
    (cd :: cds,
     (match r.output_path with
      | some p => p :: files
      | none => files),
     Call.createClip idx :: calls)

/-- `VideoProcessor.process_video` (processor.py lines 52-313): staged
pipeline with a catch-all `except` building the failure dict (recording the
current `step`) and a `finally` cleanup of the downloaded video file. -/
def process_video (env : PipelineEnv) (youtube_url : String)
    (clip_duration : ℤ) : ProcessResult × List Call :=
  if !env.ffmpeg_available then
    (failureResult youtube_url clip_duration "ffmpeg_check"
       "FFmpeg is not installed or not available in PATH",
     [Call.ffmpegCheck] ++ finallyCalls env none)
  else
    match env.transcript_result with
    | Except.error e =>
      (failureResult youtube_url clip_duration "transcript_fetch"
         ("Transcript fetch failed: " ++ e),
       [Call.ffmpegCheck, Call.transcriptFetch] ++ finallyCalls env none)
    | Except.ok none =>
      (failureResult youtube_url clip_duration "transcript_fetch"
         "Empty transcript data received",
       [Call.ffmpegCheck, Call.transcriptFetch] ++ finallyCalls env none)
    | Except.ok (some transcript_data) =>
      if transcript_data.transcript.isEmpty then
        (failureResult youtube_url clip_duration "transcript_fetch"
           "No transcript segments found",
         [Call.ffmpegCheck, Call.transcriptFetch] ++ finallyCalls env none)
      else
        match env.analysis_result with
        | Except.error e =>
          (failureResult youtube_url clip_duration "viral_analysis"
             ("Gemini AI analysis failed: " ++ e),
           [Call.ffmpegCheck, Call.transcriptFetch, Call.viralAnalysis] ++
             finallyCalls env none)
        | Except.ok viral_moments =>
          if viral_moments.isEmpty then
            (failureResult youtube_url clip_duration "viral_analysis"
               "No viral moments found after analysis",
             [Call.ffmpegCheck, Call.transcriptFetch, Call.viralAnalysis] ++
               finallyCalls env none)
          else
            match env.download_result with
            | Except.error e =>
              (failureResult youtube_url clip_duration "video_download"
                 ("Video download failed: " ++ e),
               [Call.ffmpegCheck, Call.transcriptFetch, Call.viralAnalysis,
                Call.videoDownload] ++ finallyCalls env none)
            | Except.ok video_file_path =>
              if !video_file_path.startsWith gcsPrefix &&
                 !env.file_exists video_file_path then
                (failureResult youtube_url clip_duration "video_download"
                   "Video download failed: Downloaded video file not found",
                 [Call.ffmpegCheck, Call.transcriptFetch, Call.viralAnalysis,
                  Call.videoDownload] ++ finallyCalls env (some video_file_path))
              else
                let (clips_data, _clip_files, clipCalls) :=
                  clip_creation_loop env 0 viral_moments
                let callsBase :=
                  [Call.ffmpegCheck, Call.transcriptFetch, Call.viralAnalysis,
                   Call.videoDownload] ++ clipCalls
                if clips_data.isEmpty then
                  (failureResult youtube_url clip_duration "clip_creation"
                     "No clips were successfully created",
                   callsBase ++ finallyCalls env (some video_file_path))
                else
                  ({ success := true
                     error := none
                     step_failed := none
                     youtube_url := youtube_url
                     clip_duration := clip_duration
                     clips := some clips_data
                     total_clips := some clips_data.length
                     video_info := some
                       { title := transcript_data.title
                         duration := transcript_data.duration
                         video_id := transcript_data.video_id
                         transcript_length := transcript_data.transcript.length }
                     processing_stats := some
                       { avg_virality_score :=
                           (clips_data.map (fun c => c.virality_score)).sum /
                             (clips_data.length : ℚ)
                         top_grade :=
                           match clips_data.head? with
                           | some c => c.grade
                           | none => "N/A"
                         grade_distribution := _calculate_grade_distribution clips_data
                         clips_created := clips_data.length
                         clips_attempted := viral_moments.length } },
                   callsBase ++ finallyCalls env (some video_file_path))

def isCleanupCall : Call → Bool
  | Call.cleanupVideoFile _ => true
  | _ => false

def isClipDeleteCall : Call → Bool
  | Call.deleteClipFile _ => true
  | _ => false

/-- The pipeline reaches the video-download stage and the download stage
produces a usable full-media artifact (downloader returned a path that is
a GCS URL or an existing local file). -/
def artifactProduced (env : PipelineEnv) : Bool :=
  env.ffmpeg_available &&
  (match env.transcript_result with
   | Except.error _ => false
   | Except.ok none => false
   | Except.ok (some td) => !td.transcript.isEmpty) &&
  (match env.analysis_result with
   | Except.error _ => false
   | Except.ok ms => !ms.isEmpty) &&
  (match env.download_result with
   | Except.error _ => false
   | Except.ok p => p.startsWith gcsPrefix || env.file_exists p)

/-! ## Background worker persistence (src/core/views.py lines 198-235)

The worker reads the per-clip result dictionary by string key, so the
dictionary view of `ClipData` (with the exact keys written by the
processor) is made explicit. -/

/-- A Python value as stored in the per-clip result dict. -/
inductive PyVal where
  | vNone
  | vStr (s : String)
  | vNum (q : ℚ)
  | vInt (n : ℤ)
  | vStrList (l : List String)
deriving DecidableEq

def optStrVal : Option String → PyVal
  | none => PyVal.vNone
  | some s => PyVal.vStr s

def optIntVal : Option ℤ → PyVal
  | none => PyVal.vNone
  | some n => PyVal.vInt n

/-- `dict.get(key)`: the value under the first matching key, `None` when
the key is absent. -/
def pyGet : List (String × PyVal) → String → PyVal
  | [], _ => PyVal.vNone
  | p :: rest, k => if p.1 = k then p.2 else pyGet rest k

/-- The dictionary written by the processor for one clip (processor.py
lines 204-220): exactly these keys. Wall-clock values (`creation_time`,
`created_at`) are carried as placeholders. -/
def clip_data_dict (c : ClipData) : List (String × PyVal) :=
  [("rank", PyVal.vInt c.rank),
   ("start_timestamp", PyVal.vNum c.start_timestamp),
   ("end_timestamp", PyVal.vNum c.end_timestamp),
   ("duration", PyVal.vNum c.duration),
   ("virality_score", PyVal.vNum c.virality_score),
   ("grade", PyVal.vStr c.grade),
   ("justification", PyVal.vStr c.justification),
   ("emotional_keywords", PyVal.vStrList c.emotional_keywords),
   ("urgency_indicators", PyVal.vStrList c.urgency_indicators),
   ("output_path", optStrVal c.output_path),
   ("clip_filename", optStrVal c.clip_filename),
   ("file_size", optIntVal c.file_size),
   ("resolution", optStrVal c.resolution),
   ("creation_time", PyVal.vNum 0),
   ("created_at", PyVal.vStr "")]

def pyValToRat : PyVal → ℚ
  | PyVal.vNum q => q
  | PyVal.vInt n => n
  | _ => 0

def pyValToStr : PyVal → String
  | PyVal.vStr s => s
  | _ => ""

def pyValToStrList : PyVal → List String
  | PyVal.vStrList l => l
  | _ => []

def pyValToOptStr : PyVal → Option String
  | PyVal.vStr s => some s
  | _ => none

/-- Python `int()` on a rational: truncation toward zero. -/
def pyIntTrunc (q : ℚ) : ℤ := if 0 ≤ q then ⌊q⌋ else -⌊-q⌋

/-- A persisted `ViralClip` row (src/core/models.py lines 20-31). -/
structure ViralClipRow where
  start_timestamp : ℚ
  end_timestamp : ℚ
  justification : String
  emotional_keywords : String
  urgency_indicators : String
  virality_score : ℤ
  clip_url : Option String
  preview_url : Option String
deriving DecidableEq

/-- One `ViralClip.objects.create(...)` of the worker success path
(views.py lines 207-217). The worker reads the key `clip_path`, which the
processor never writes (it writes `output_path`). -/
def save_clip_row (clip_data : List (String × PyVal)) : ViralClipRow :=
  { start_timestamp := pyValToRat (pyGet clip_data "start_timestamp")
    end_timestamp := pyValToRat (pyGet clip_data "end_timestamp")
    justification := pyValToStr (pyGet clip_data "justification")
    emotional_keywords :=
      String.intercalate ", " (pyValToStrList (pyGet clip_data "emotional_keywords"))
    urgency_indicators :=
      String.intercalate ", " (pyValToStrList (pyGet clip_data "urgency_indicators"))
    virality_score := pyIntTrunc (pyValToRat (pyGet clip_data "virality_score") * 100)
    clip_url := pyValToOptStr (pyGet clip_data "clip_path")
    preview_url := none }

/-- HTTP status returned by `download_clip` (views.py lines 470-497) as a
function of the stored `clip_url` and filesystem state: 404 when the url
is null/empty or the file does not exist, 200 (the streamed attachment)
otherwise. -/
def download_clip_status (clip_url : Option String)
    (file_exists : String → Bool) : ℕ :=
  match clip_url with
  | none => 404
  | some u => if u = "" then 404 else if file_exists u then 200 else 404

/-! ## Results analytics (src/core/views.py lines 356-417) -/

/-- The `success_rate` computed by the `results` view (views.py lines
357-365) over a job's stored clip scores (0-100 integer scale):
`top_clips = clips.filter(virality_score__gte=80).count()`,
`success_rate = top_clips / total_clips * 100` when there are clips. -/
def results_success_rate (scores : List ℤ) : ℚ :=
  if 0 < scores.length then
    ((scores.countP (fun s => decide (80 ≤ s))) : ℚ) / (scores.length : ℚ) * 100
  else 0

/-- The grade derived from a stored 0-100 score by
`calculate_grade_distribution_from_clips` (views.py lines 385-413):
`score = clip.virality_score / 100.0`, then the fixed threshold chain. -/
def stored_score_grade (virality_score : ℤ) : String :=
  let score : ℚ := (virality_score : ℚ) / 100
  if score ≥ 97/100 then "A+"
  else if score ≥ 93/100 then "A"
  else if score ≥ 90/100 then "A-"
  else if score ≥ 87/100 then "B+"
  else if score ≥ 83/100 then "B"
  else if score ≥ 80/100 then "B-"
  else if score ≥ 77/100 then "C+"
  else if score ≥ 73/100 then "C"
  else if score ≥ 70/100 then "C-"
  else if score ≥ 65/100 then "D+"
  else if score ≥ 60/100 then "D"
  else "F"

/-- `calculate_grade_distribution_from_clips` (views.py lines 385-417). -/
def calculate_grade_distribution_from_clips (scores : List ℤ) :
    List (String × ℕ) :=
  scores.foldl (fun d sc => bumpCount d (stored_score_grade sc)) []

/-- Modelled from the spec: "success rate = fraction of A-grade-equivalent
clips" — the percentage of the job's clips whose score-derived grade is
A+, A or A-. -/
def spec_success_rate (scores : List ℤ) : ℚ :=
  if 0 < scores.length then
    ((scores.countP (fun s =>
        decide (stored_score_grade s = "A+" ∨ stored_score_grade s = "A" ∨
                stored_score_grade s = "A-"))) : ℚ) / (scores.length : ℚ) * 100
  else 0

/-! ## Job submission (src/core/views.py lines 30-306) -/

/-- A parsed submission request body. `youtube_url = none` models an
absent key; the clip duration defaults to 30 when absent and is
int-coerced before validation. -/
structure SubmitRequest where
  youtube_url : Option String
  clip_duration : ℤ
deriving DecidableEq

/-- Ambient environment / persistence state consulted by the view. -/
structure ViewEnv where
  gemini_api_key : Bool
  apify_api_key : Bool
  db_ok : Bool
  create_ok : Bool
  new_id : ℕ

/-- Observable response of the submission endpoint, plus whether a
processing record was created before responding. -/
structure SubmitResponse where
  status : ℕ
  success : Bool
  error : Option String
  processing_id : Option ℕ
  record_created : Bool
deriving DecidableEq

/-- `process_video` view (views.py lines 30-306): validation order is
url truthiness (absent or empty string is falsy), then the 5..60 duration
range, then environment keys, database probe, record creation; the success
response carries the new record id. -/
def pyUrlFalsy : Option String → Bool
  | none => true
  | some s => decide (s = "")

def process_video_view (req : SubmitRequest) (env : ViewEnv) : SubmitResponse :=
  if pyUrlFalsy req.youtube_url then
    { status := 400, success := false, error := some "YouTube URL is required",
      processing_id := none, record_created := false }
  else if req.clip_duration < 5 ∨ req.clip_duration > 60 then
    { status := 400, success := false,
      error := some "Clip duration must be between 5 and 60 seconds",
      processing_id := none, record_created := false }
  else if !env.gemini_api_key then
    { status := 500, success := false, error := some "No key could be detected.",
      processing_id := none, record_created := false }
  else if !env.apify_api_key then
    { status := 500, success := false, error := some "No key could be detected.",
      processing_id := none, record_created := false }
  else if !env.db_ok then
    { status := 500, success := false, error := some "Database connection failed",
      processing_id := none, record_created := false }
  else if !env.create_ok then
    { status := 500, success := false,
      error := some "Failed to create processing record",
      processing_id := none, record_created := false }
  else
    { status := 200, success := true, error := none,
      processing_id := some env.new_id, record_created := true }

/-! ## Helper lemmas -/

theorem mem_insertDesc {x a : VMoment} {l : List VMoment} :
    a ∈ insertDesc x l ↔ a = x ∨ a ∈ l := by
  induction l with
  | nil => simp [insertDesc]
  | cons y ys ih =>
    simp only [insertDesc]
    split_ifs with h
    · rw [List.mem_cons, ih, List.mem_cons]
      tauto
    · exact List.mem_cons

theorem mem_sortDesc {a : VMoment} {l : List VMoment} :
    a ∈ sortDesc l ↔ a ∈ l := by
  induction l with
  | nil => simp [sortDesc]
  | cons x xs ih =>
    simp only [sortDesc, mem_insertDesc, ih, List.mem_cons]

theorem length_insertDesc (x : VMoment) (l : List VMoment) :
    (insertDesc x l).length = l.length + 1 := by
  induction l with
  | nil => simp [insertDesc]
  | cons y ys ih =>
    simp only [insertDesc]
    split_ifs with h <;> simp [ih]

theorem length_sortDesc (l : List VMoment) :
    (sortDesc l).length = l.length := by
  induction l with
  | nil => rfl
  | cons x xs ih => simp [sortDesc, length_insertDesc, ih]

/-! ## C3: the score→grade table and its monotonicity -/

theorem find?_grade_pos {t : ℚ} {g : String} {rest : List (ℚ × String)}
    {s : ℚ} (h : t ≤ s) :
    List.find? (fun p => decide (p.1 ≤ s)) ((t, g) :: rest) = some (t, g) :=
  List.find?_cons_of_pos _ (by simpa using h)

theorem find?_grade_neg {t : ℚ} {g : String} {rest : List (ℚ × String)}
    {s : ℚ} (h : ¬t ≤ s) :
    List.find? (fun p => decide (p.1 ≤ s)) ((t, g) :: rest) =
      List.find? (fun p => decide (p.1 ≤ s)) rest :=
  List.find?_cons_of_neg _ (by simpa using h)

theorem find?_append_grade (s t : ℚ) (g : String) (post : List (ℚ × String))
    (h : t ≤ s) :
    ∀ pre : List (ℚ × String), (∀ p ∈ pre, ¬p.1 ≤ s) →
      List.find? (fun p => decide (p.1 ≤ s)) (pre ++ (t, g) :: post) =
        some (t, g) := by
  intro pre
  induction pre with
  | nil =>
    intro _
    simpa using find?_grade_pos h
  | cons q qs ih =>
    intro hpre
    rcases q with ⟨tq, gq⟩
    rw [List.cons_append, find?_grade_neg (hpre (tq, gq) (List.mem_cons_self _ _))]
    exact ih (fun p hp => hpre p (List.mem_cons_of_mem _ hp))

theorem specGrade_eq_of_ge (s t : ℚ) (g : String) (pre post : List (ℚ × String))
    (htable : gradeTable = pre ++ (t, g) :: post)
    (hpre : ∀ p ∈ pre, ¬p.1 ≤ s) (h : t ≤ s) : specGrade s = g := by
  unfold specGrade
  rw [htable, find?_append_grade s t g post h pre hpre]

theorem specGrade_eq_F {s : ℚ} (hall : ∀ p ∈ gradeTable, ¬p.1 ≤ s) :
    specGrade s = "F" := by
  unfold specGrade
  rw [List.find?_eq_none.mpr (fun p hp => by simpa using hall p hp)]

/-- Ascending list of the grade thresholds, for the counting argument behind
grade monotonicity. -/
def thresholds : List ℚ :=
  [60/100, 65/100, 70/100, 73/100, 77/100, 80/100, 83/100, 87/100, 90/100,
   93/100, 97/100]

theorem countP_thresholds (s : ℚ) (low high : List ℚ)
    (hsplit : thresholds = low ++ high)
    (hlow : ∀ t ∈ low, t ≤ s) (hhigh : ∀ t ∈ high, ¬t ≤ s) :
    thresholds.countP (fun t => decide (t ≤ s)) = low.length := by
  rw [hsplit, List.countP_append,
    List.countP_eq_length.mpr (fun t ht => decide_eq_true (hlow t ht)),
    List.countP_eq_zero.mpr (fun t ht => by simpa using hhigh t ht)]
  rfl

set_option maxHeartbeats 1600000 in
theorem rank_convert_eq (s : ℚ) :
    gradeRank (convert_score_to_grade s) =
      thresholds.countP (fun t => decide (t ≤ s)) := by
  unfold convert_score_to_grade
  split_ifs with h1 h2 h3 h4 h5 h6 h7 h8 h9 h10 h11
  · rw [countP_thresholds s thresholds [] rfl
      (by intro t ht; fin_cases ht <;> linarith)
      (by intro t ht; exact absurd ht (List.not_mem_nil t))]
    rfl
  · rw [countP_thresholds s
      [60/100, 65/100, 70/100, 73/100, 77/100, 80/100, 83/100, 87/100, 90/100, 93/100]
      [97/100] rfl
      (by intro t ht; fin_cases ht <;> linarith)
      (by intro t ht; fin_cases ht <;> (intro hc; linarith))]
    rfl
  · rw [countP_thresholds s
      [60/100, 65/100, 70/100, 73/100, 77/100, 80/100, 83/100, 87/100, 90/100]
      [93/100, 97/100] rfl
      (by intro t ht; fin_cases ht <;> linarith)
      (by intro t ht; fin_cases ht <;> (intro hc; linarith))]
    rfl
  · rw [countP_thresholds s
      [60/100, 65/100, 70/100, 73/100, 77/100, 80/100, 83/100, 87/100]
      [90/100, 93/100, 97/100] rfl
      (by intro t ht; fin_cases ht <;> linarith)
      (by intro t ht; fin_cases ht <;> (intro hc; linarith))]
    rfl
  · rw [countP_thresholds s
      [60/100, 65/100, 70/100, 73/100, 77/100, 80/100, 83/100]
      [87/100, 90/100, 93/100, 97/100] rfl
      (by intro t ht; fin_cases ht <;> linarith)
      (by intro t ht; fin_cases ht <;> (intro hc; linarith))]
    rfl
  · rw [countP_thresholds s
      [60/100, 65/100, 70/100, 73/100, 77/100, 80/100]
      [83/100, 87/100, 90/100, 93/100, 97/100] rfl
      (by intro t ht; fin_cases ht <;> linarith)
      (by intro t ht; fin_cases ht <;> (intro hc; linarith))]
    rfl
  · rw [countP_thresholds s
      [60/100, 65/100, 70/100, 73/100, 77/100]
      [80/100, 83/100, 87/100, 90/100, 93/100, 97/100] rfl
      (by intro t ht; fin_cases ht <;> linarith)
      (by intro t ht; fin_cases ht <;> (intro hc; linarith))]
    rfl
  · rw [countP_thresholds s
      [60/100, 65/100, 70/100, 73/100]
      [77/100, 80/100, 83/100, 87/100, 90/100, 93/100, 97/100] rfl
      (by intro t ht; fin_cases ht <;> linarith)
      (by intro t ht; fin_cases ht <;> (intro hc; linarith))]
    rfl
  · rw [countP_thresholds s
      [60/100, 65/100, 70/100]
      [73/100, 77/100, 80/100, 83/100, 87/100, 90/100, 93/100, 97/100] rfl
      (by intro t ht; fin_cases ht <;> linarith)
      (by intro t ht; fin_cases ht <;> (intro hc; linarith))]
    rfl
  · rw [countP_thresholds s
      [60/100, 65/100]
      [70/100, 73/100, 77/100, 80/100, 83/100, 87/100, 90/100, 93/100, 97/100] rfl
      (by intro t ht; fin_cases ht <;> linarith)
      (by intro t ht; fin_cases ht <;> (intro hc; linarith))]
    rfl
  · rw [countP_thresholds s
      [60/100]
      [65/100, 70/100, 73/100, 77/100, 80/100, 83/100, 87/100, 90/100, 93/100, 97/100] rfl
      (by intro t ht; fin_cases ht <;> linarith)
      (by intro t ht; fin_cases ht <;> (intro hc; linarith))]
    rfl
  · rw [countP_thresholds s [] thresholds rfl
      (by intro t ht; exact absurd ht (List.not_mem_nil t))
      (by intro t ht; fin_cases ht <;> (intro hc; linarith))]
    rfl

theorem rank_mono (s1 s2 : ℚ) (h : s1 ≤ s2) :
    gradeRank (convert_score_to_grade s1) ≤
      gradeRank (convert_score_to_grade s2) := by
  rw [rank_convert_eq s1, rank_convert_eq s2]
  exact List.countP_mono_left
    (fun t _ hp => decide_eq_true (le_trans (of_decide_eq_true hp) h))

set_option maxHeartbeats 1600000 in
/-- C3: for every score in [0,1], `convert_score_to_grade` agrees with the
spec's top-down first-match threshold table, and the assigned grade is
monotonically non-decreasing in the score (a lower score never gets a
strictly better letter grade). -/
theorem convert_score_to_grade_spec :
    (∀ s : ℚ, 0 ≤ s → s ≤ 1 → convert_score_to_grade s = specGrade s) ∧
    (∀ s1 s2 : ℚ, 0 ≤ s1 → s1 ≤ s2 → s2 ≤ 1 →
      gradeRank (convert_score_to_grade s1) ≤
        gradeRank (convert_score_to_grade s2)) := by
  constructor
  · intro s _ _
    unfold convert_score_to_grade
    split_ifs with h1 h2 h3 h4 h5 h6 h7 h8 h9 h10 h11
    · exact (specGrade_eq_of_ge s (97/100) "A+"
        []
        [(93/100, "A"), (90/100, "A-"), (87/100, "B+"), (83/100, "B"), (80/100, "B-"), (77/100, "C+"), (73/100, "C"), (70/100, "C-"), (65/100, "D+"), (60/100, "D")]
        rfl
        (by intro p hp; exact absurd hp (List.not_mem_nil p)) h1).symm
    · exact (specGrade_eq_of_ge s (93/100) "A"
        [(97/100, "A+")]
        [(90/100, "A-"), (87/100, "B+"), (83/100, "B"), (80/100, "B-"), (77/100, "C+"), (73/100, "C"), (70/100, "C-"), (65/100, "D+"), (60/100, "D")]
        rfl
        (by intro p hp; fin_cases hp <;> (intro hc; simp at hc; linarith)) h2).symm
    · exact (specGrade_eq_of_ge s (90/100) "A-"
        [(97/100, "A+"), (93/100, "A")]
        [(87/100, "B+"), (83/100, "B"), (80/100, "B-"), (77/100, "C+"), (73/100, "C"), (70/100, "C-"), (65/100, "D+"), (60/100, "D")]
        rfl
        (by intro p hp; fin_cases hp <;> (intro hc; simp at hc; linarith)) h3).symm
    · exact (specGrade_eq_of_ge s (87/100) "B+"
        [(97/100, "A+"), (93/100, "A"), (90/100, "A-")]
        [(83/100, "B"), (80/100, "B-"), (77/100, "C+"), (73/100, "C"), (70/100, "C-"), (65/100, "D+"), (60/100, "D")]
        rfl
        (by intro p hp; fin_cases hp <;> (intro hc; simp at hc; linarith)) h4).symm
    · exact (specGrade_eq_of_ge s (83/100) "B"
        [(97/100, "A+"), (93/100, "A"), (90/100, "A-"), (87/100, "B+")]
        [(80/100, "B-"), (77/100, "C+"), (73/100, "C"), (70/100, "C-"), (65/100, "D+"), (60/100, "D")]
        rfl
        (by intro p hp; fin_cases hp <;> (intro hc; simp at hc; linarith)) h5).symm
    · exact (specGrade_eq_of_ge s (80/100) "B-"
        [(97/100, "A+"), (93/100, "A"), (90/100, "A-"), (87/100, "B+"), (83/100, "B")]
        [(77/100, "C+"), (73/100, "C"), (70/100, "C-"), (65/100, "D+"), (60/100, "D")]
        rfl
        (by intro p hp; fin_cases hp <;> (intro hc; simp at hc; linarith)) h6).symm
    · exact (specGrade_eq_of_ge s (77/100) "C+"
        [(97/100, "A+"), (93/100, "A"), (90/100, "A-"), (87/100, "B+"), (83/100, "B"), (80/100, "B-")]
        [(73/100, "C"), (70/100, "C-"), (65/100, "D+"), (60/100, "D")]
        rfl
        (by intro p hp; fin_cases hp <;> (intro hc; simp at hc; linarith)) h7).symm
    · exact (specGrade_eq_of_ge s (73/100) "C"
        [(97/100, "A+"), (93/100, "A"), (90/100, "A-"), (87/100, "B+"), (83/100, "B"), (80/100, "B-"), (77/100, "C+")]
        [(70/100, "C-"), (65/100, "D+"), (60/100, "D")]
        rfl
        (by intro p hp; fin_cases hp <;> (intro hc; simp at hc; linarith)) h8).symm
    · exact (specGrade_eq_of_ge s (70/100) "C-"
        [(97/100, "A+"), (93/100, "A"), (90/100, "A-"), (87/100, "B+"), (83/100, "B"), (80/100, "B-"), (77/100, "C+"), (73/100, "C")]
        [(65/100, "D+"), (60/100, "D")]
        rfl
        (by intro p hp; fin_cases hp <;> (intro hc; simp at hc; linarith)) h9).symm
    · exact (specGrade_eq_of_ge s (65/100) "D+"
        [(97/100, "A+"), (93/100, "A"), (90/100, "A-"), (87/100, "B+"), (83/100, "B"), (80/100, "B-"), (77/100, "C+"), (73/100, "C"), (70/100, "C-")]
        [(60/100, "D")]
        rfl
        (by intro p hp; fin_cases hp <;> (intro hc; simp at hc; linarith)) h10).symm
    · exact (specGrade_eq_of_ge s (60/100) "D"
        [(97/100, "A+"), (93/100, "A"), (90/100, "A-"), (87/100, "B+"), (83/100, "B"), (80/100, "B-"), (77/100, "C+"), (73/100, "C"), (70/100, "C-"), (65/100, "D+")]
        []
        rfl
        (by intro p hp; fin_cases hp <;> (intro hc; simp at hc; linarith)) h11).symm
    · exact (specGrade_eq_F
        (by intro p hp; fin_cases hp <;> (intro hc; simp at hc; linarith))).symm
  · intro s1 s2 _ h12 _
    exact rank_mono s1 s2 h12

/-- Witness for C3 at concrete scores. -/
theorem convert_score_to_grade_spec_witness :
    convert_score_to_grade (85/100) = specGrade (85/100) ∧
    gradeRank (convert_score_to_grade (1/2)) ≤
      gradeRank (convert_score_to_grade (9/10)) :=
  ⟨convert_score_to_grade_spec.1 (85/100) (by norm_num) (by norm_num),
   convert_score_to_grade_spec.2 (1/2) (9/10) (by norm_num) (by norm_num)
     (by norm_num)⟩

/-! ## C2 / C5: the validation pass -/

/-- A candidate moment with no fields at all (model of an empty moment
dict): validation fills every field from its defaults. -/
def emptyMoment : Moment :=
  { start_timestamp := none, end_timestamp := none, virality_score := none,
    grade := none, justification := none, emotional_keywords := none,
    urgency_indicators := none }

/-- C2 counterexample: the claim allows any totalDuration ≥ 0, but at
totalDuration = 0 validation produces a moment with start = end = 0,
violating `start < end` (the moment is still appended, not discarded). -/
theorem validate_bounds_fail_at_zero_duration :
    (0:ℚ) ≤ 0 ∧
    ∃ v ∈ _validate_viral_moments [emptyMoment] 0,
      ¬ v.start_timestamp < v.end_timestamp := by
  refine ⟨le_refl 0, validate_one emptyMoment 0, ?_, ?_⟩
  · simp [_validate_viral_moments, sortDesc, insertDesc]
  · show ¬ max 0 (min 0 ((0:ℚ) - 30)) < min 0 (max (0:ℚ) (min 0 (0 - 30)) + 30)
    norm_num

/-- C2 (amended): for every strictly positive total duration, every moment
returned by the validation pass satisfies
0 ≤ start < end ≤ totalDuration and 0 ≤ score ≤ 1, whatever the input
moments' fields were; at totalDuration = 0 the start < end clause fails
(see the counterexample). -/
theorem validate_bounds_of_pos_duration (moments : List Moment) (td : ℚ)
    (h : 0 < td) :
    ∀ v ∈ _validate_viral_moments moments td,
      0 ≤ v.start_timestamp ∧ v.start_timestamp < v.end_timestamp ∧
      v.end_timestamp ≤ td ∧
      0 ≤ v.virality_score ∧ v.virality_score ≤ 1 := by
  intro v hv
  simp only [_validate_viral_moments] at hv
  have hv2 : v ∈ moments.map (fun m => validate_one m td) :=
    mem_sortDesc.mp (List.mem_of_mem_take hv)
  obtain ⟨m, _, rfl⟩ := List.mem_map.mp hv2
  have hs : (validate_one m td).start_timestamp
      = max 0 (min (m.start_timestamp.getD 0) (td - 30)) := rfl
  have he : (validate_one m td).end_timestamp
      = min td ((validate_one m td).start_timestamp + 30) := rfl
  have hsc : (validate_one m td).virality_score
      = max 0 (min 1 (m.virality_score.getD (7/10))) := rfl
  have h0s : 0 ≤ (validate_one m td).start_timestamp := by
    rw [hs]
    exact le_max_left 0 _
  have hstd : (validate_one m td).start_timestamp < td := by
    rw [hs]
    apply max_lt h
    exact lt_of_le_of_lt (min_le_right _ _) (by linarith)
  refine ⟨h0s, ?_, ?_, ?_, ?_⟩
  · rw [he]
    exact lt_min hstd (by linarith)
  · rw [he]
    exact min_le_left _ _
  · rw [hsc]
    exact le_max_left 0 _
  · rw [hsc]
    exact max_le (by norm_num) (min_le_left _ _)

/-- Witness for C2 at a concrete input: the all-default moment validated
against a 100s video. -/
theorem validate_bounds_of_pos_duration_witness :
    0 ≤ (validate_one emptyMoment 100).start_timestamp ∧
    (validate_one emptyMoment 100).start_timestamp <
      (validate_one emptyMoment 100).end_timestamp ∧
    (validate_one emptyMoment 100).end_timestamp ≤ 100 ∧
    0 ≤ (validate_one emptyMoment 100).virality_score ∧
    (validate_one emptyMoment 100).virality_score ≤ 1 :=
  validate_bounds_of_pos_duration [emptyMoment] 100 (by norm_num)
    (validate_one emptyMoment 100)
    (by simp [_validate_viral_moments, sortDesc, insertDesc])

/-- Concrete in-range candidate for the C5 counterexample: start 0 and
end 5 inside a 100s video. -/
def c5Moment : Moment :=
  { start_timestamp := some 0, end_timestamp := some 5,
    virality_score := some (1/2), grade := some "C",
    justification := some "j", emotional_keywords := some [],
    urgency_indicators := some [] }

/-- C5 counterexample: the input timestamps are in range (start 0 in
[0, 100−30], end 5 in [start, 100]), yet validation rewrites the end
timestamp to 30 — the pass is not the identity on in-range values, because
the end is recomputed as min(totalDuration, start+30) rather than
clamped. -/
theorem validate_end_not_identity :
    c5Moment.start_timestamp = some 0 ∧ c5Moment.end_timestamp = some 5 ∧
    (0:ℚ) ≤ 0 ∧ (0:ℚ) ≤ 100 - 30 ∧ (0:ℚ) ≤ 5 ∧ (5:ℚ) ≤ 100 ∧
    (validate_one c5Moment 100).start_timestamp = 0 ∧
    (validate_one c5Moment 100).end_timestamp = 30 := by
  refine ⟨rfl, rfl, by norm_num, by norm_num, by norm_num, by norm_num, ?_, ?_⟩
  · show max 0 (min 0 ((100:ℚ) - 30)) = 0
    norm_num
  · show min 100 (max 0 (min 0 ((100:ℚ) - 30)) + 30) = 30
    norm_num

/-- C5 (amended): the start-timestamp clamp is the identity on in-range
start values, but the end timestamp is always recomputed as
min(totalDuration, start + 30), ignoring the input end timestamp; the
clamp floor is the hard-coded 30, not the requested clip duration. -/
theorem validate_clamp_amended (m : Moment) (td : ℚ)
    (h1 : 0 ≤ m.start_timestamp.getD 0)
    (h2 : m.start_timestamp.getD 0 ≤ td - 30) :
    (validate_one m td).start_timestamp = m.start_timestamp.getD 0 ∧
    (validate_one m td).end_timestamp =
      min td (m.start_timestamp.getD 0 + 30) := by
  have hs : (validate_one m td).start_timestamp
      = max 0 (min (m.start_timestamp.getD 0) (td - 30)) := rfl
  have he : (validate_one m td).end_timestamp
      = min td ((validate_one m td).start_timestamp + 30) := rfl
  have hs2 : (validate_one m td).start_timestamp = m.start_timestamp.getD 0 := by
    rw [hs, min_eq_left h2, max_eq_right h1]
  exact ⟨hs2, by rw [he, hs2]⟩

/-- Witness for C5 (amended) at the concrete in-range candidate. -/
theorem validate_clamp_amended_witness :
    (validate_one c5Moment 100).start_timestamp =
      c5Moment.start_timestamp.getD 0 ∧
    (validate_one c5Moment 100).end_timestamp =
      min 100 (c5Moment.start_timestamp.getD 0 + 30) :=
  validate_clamp_amended c5Moment 100 (by norm_num [c5Moment])
    (by norm_num [c5Moment])

/-! ## C4: the fallback moments -/

theorem fallbackMoment_eq (td c : ℚ) (i : ℕ) (pos : String) (st : ℚ)
    (h : st < min td (st + c)) :
    fallbackMoment td c i pos st = some
      { start_timestamp := some st
        end_timestamp := some (min td (st + c))
        virality_score := some (7/10 - i * (1/10))
        grade := some "B"
        justification := some ("Fallback clip from " ++ pos ++ " of video")
        emotional_keywords := some ["engaging", "content"]
        urgency_indicators := some ["interesting", "moment"] } := by
  unfold fallbackMoment
  rw [if_pos h]

/-- C4 (amended): when the source duration is at least targetDuration + 10
(and the target is positive), the fallback synthesizes exactly the three
expected candidates — offsets 10, (duration−target)/2 and
duration−target−10, each targetDuration long, scores 0.7/0.6/0.5, grade B —
and the fallback path of extractMoments returns exactly 3 moments; for
shorter sources fewer candidates are produced (2 when 0 < duration ≤ 10,
none when duration = 0), and the validation pass afterwards rewrites each
end timestamp to min(duration, start+30) and clamps starts, so the
returned clips are 30s-shaped, not targetDuration-shaped, when target ≠ 30
(see the counterexample for the claim as stated). -/
theorem fallback_moments_of_long_video (data : TranscriptData) (c : ℚ)
    (h1 : data.transcript.isEmpty = false) (h2 : 0 < c)
    (h3 : c + 10 ≤ data.duration) :
    _create_fallback_moments data c =
      [{ start_timestamp := some 10
         end_timestamp := some (10 + c)
         virality_score := some (7/10)
         grade := some "B"
         justification := some "Fallback clip from beginning of video"
         emotional_keywords := some ["engaging", "content"]
         urgency_indicators := some ["interesting", "moment"] },
       { start_timestamp := some (data.duration / 2 - c / 2)
         end_timestamp := some (data.duration / 2 + c / 2)
         virality_score := some (6/10)
         grade := some "B"
         justification := some "Fallback clip from middle of video"
         emotional_keywords := some ["engaging", "content"]
         urgency_indicators := some ["interesting", "moment"] },
       { start_timestamp := some (data.duration - c - 10)
         end_timestamp := some (data.duration - 10)
         virality_score := some (5/10)
         grade := some "B"
         justification := some "Fallback clip from end of video"
         emotional_keywords := some ["engaging", "content"]
         urgency_indicators := some ["interesting", "moment"] }] ∧
    (extract_fallback_path data c).length = 3 := by
  have e1 : max (0:ℚ) 10 = 10 := by norm_num
  have e2 : max 0 (data.duration / 2 - c / 2) = data.duration / 2 - c / 2 :=
    max_eq_right (by linarith)
  have e3 : max 0 (data.duration - c - 10) = data.duration - c - 10 :=
    max_eq_right (by linarith)
  have f1 : min data.duration (10 + c) = 10 + c := min_eq_right (by linarith)
  have f2 : min data.duration (data.duration / 2 - c / 2 + c) =
      data.duration / 2 + c / 2 := by
    rw [min_eq_right (by linarith)]
    ring
  have f3 : min data.duration (data.duration - c - 10 + c) =
      data.duration - 10 := by
    rw [min_eq_right (by linarith)]
    ring
  have hlist : _create_fallback_moments data c =
      [{ start_timestamp := some 10
         end_timestamp := some (10 + c)
         virality_score := some (7/10)
         grade := some "B"
         justification := some "Fallback clip from beginning of video"
         emotional_keywords := some ["engaging", "content"]
         urgency_indicators := some ["interesting", "moment"] },
       { start_timestamp := some (data.duration / 2 - c / 2)
         end_timestamp := some (data.duration / 2 + c / 2)
         virality_score := some (6/10)
         grade := some "B"
         justification := some "Fallback clip from middle of video"
         emotional_keywords := some ["engaging", "content"]
         urgency_indicators := some ["interesting", "moment"] },
       { start_timestamp := some (data.duration - c - 10)
         end_timestamp := some (data.duration - 10)
         virality_score := some (5/10)
         grade := some "B"
         justification := some "Fallback clip from end of video"
         emotional_keywords := some ["engaging", "content"]
         urgency_indicators := some ["interesting", "moment"] }] := by
    unfold _create_fallback_moments
    rw [if_neg (by simp [h1])]
    simp only [List.filterMap_cons, List.filterMap_nil, e1, e2, e3]
    rw [fallbackMoment_eq data.duration c 0 "beginning" 10
        (by rw [f1]; linarith),
      fallbackMoment_eq data.duration c 1 "middle" (data.duration / 2 - c / 2)
        (by rw [f2]; linarith),
      fallbackMoment_eq data.duration c 2 "end" (data.duration - c - 10)
        (by rw [f3]; linarith),
      f1, f2, f3]
    norm_num
    exact ⟨rfl, rfl, rfl⟩
  refine ⟨hlist, ?_⟩
  unfold extract_fallback_path
  rw [hlist]
  simp only [_validate_viral_moments]
  rw [List.length_take, length_sortDesc, List.length_map]
  rfl

/-- A 5-second source with a non-empty transcript. -/
def fbData5 : TranscriptData :=
  { title := "t", duration := 5, video_id := "v",
    transcript := [{ start := 0, text := "hello" }] }

/-- C4 counterexample: on a 5-second source with a non-empty transcript and
target duration 30, the all-parsing-failed path of extractMoments returns
only 2 fallback candidates, not the exactly-3 the claim states (the
beginning-position candidate is dropped because its window would be
empty). -/
theorem fallback_moments_two_for_short_video :
    fbData5.transcript ≠ [] ∧
    (extract_fallback_path fbData5 30).length = 2 := by
  constructor
  · simp [fbData5]
  · norm_num [extract_fallback_path, _validate_viral_moments,
      _create_fallback_moments, fbData5, fallbackMoment, validate_one,
      sortDesc, insertDesc, min_def, max_def, List.filterMap_cons]

/-- A 120-second source with a non-empty transcript. -/
def fbData120 : TranscriptData :=
  { title := "t", duration := 120, video_id := "v",
    transcript := [{ start := 0, text := "s" }] }

/-- Witness for C4 (amended): a 120s source and a 30s target yield exactly
3 fallback candidates through the fallback path. -/
theorem fallback_moments_of_long_video_witness :
    (extract_fallback_path fbData120 30).length = 3 :=
  (fallback_moments_of_long_video fbData120 30 rfl (by norm_num)
    (by norm_num [fbData120])).2

/-! ## C1 / C6 / C7: orchestrator properties -/

theorem clip_loop_calls_countP (env : PipelineEnv) :
    ∀ (moments : List VMoment) (i : ℕ),
      (clip_creation_loop env i moments).2.2.countP isCleanupCall = 0 ∧
      (clip_creation_loop env i moments).2.2.countP isClipDeleteCall = 0 := by
  intro moments
  induction moments with
  | nil =>
    intro i
    simp [clip_creation_loop]
  | cons m rest ih =>
    intro i
    obtain ⟨c1, c2⟩ := ih (i + 1)
    simp only [clip_creation_loop]
    rcases hres : clip_creation_loop env (i + 1) rest with ⟨cds, rest2⟩
    rcases rest2 with ⟨files, calls⟩
    rw [hres] at c1 c2
    simp only [List.countP_cons, isCleanupCall, isClipDeleteCall]
    simp [c1, c2, isCleanupCall, isClipDeleteCall]

theorem finallyCalls_countP_of_artifact (env : PipelineEnv) (p : String)
    (hart : (p.startsWith gcsPrefix || env.file_exists p) = true) :
    (finallyCalls env (some p)).countP isCleanupCall = 1 ∧
    (finallyCalls env (some p)).countP isClipDeleteCall = 0 := by
  unfold finallyCalls
  by_cases hgcs : p.startsWith gcsPrefix
  · simp [hgcs, isCleanupCall, isClipDeleteCall]
  · have hfe : env.file_exists p = true := by
      rcases Bool.or_eq_true_iff.mp hart with h | h
      · exact absurd h hgcs
      · exact h
    simp [hgcs, hfe, isCleanupCall, isClipDeleteCall]

/-- C6: over every oracle outcome (every exit path of the run — success,
any fatal stage failure, and the injected clip failures), the orchestrator
never deletes a rendered clip file, invokes the full-media cleanup at most
once, and invokes it exactly once whenever the download stage produced a
usable full-media artifact. -/
theorem process_video_cleanup_once (env : PipelineEnv) (url : String)
    (cd : ℤ) :
    (process_video env url cd).2.countP isClipDeleteCall = 0 ∧
    (process_video env url cd).2.countP isCleanupCall ≤ 1 ∧
    (artifactProduced env = true →
      (process_video env url cd).2.countP isCleanupCall = 1) := by
  obtain ⟨ff, tr, an, dl, fe, cr⟩ := env
  unfold process_video artifactProduced
  cases ff with
  | false => simp [finallyCalls, isCleanupCall, isClipDeleteCall]
  | true =>
    cases tr with
    | error e => simp [finallyCalls, isCleanupCall, isClipDeleteCall]
    | ok otd =>
      cases otd with
      | none => simp [finallyCalls, isCleanupCall, isClipDeleteCall]
      | some td =>
        by_cases htr : td.transcript.isEmpty
        · simp [htr, finallyCalls, isCleanupCall, isClipDeleteCall]
        · cases an with
          | error e => simp [htr, finallyCalls, isCleanupCall, isClipDeleteCall]
          | ok ms =>
            by_cases hms : ms.isEmpty
            · simp [htr, hms, finallyCalls, isCleanupCall, isClipDeleteCall]
            · cases dl with
              | error e =>
                simp [htr, hms, finallyCalls, isCleanupCall, isClipDeleteCall]
              | ok p =>
                set env0 : PipelineEnv :=
                  { ffmpeg_available := true
                    transcript_result := Except.ok (some td)
                    analysis_result := Except.ok ms
                    download_result := Except.ok p
                    file_exists := fe
                    clip_result := cr } with henv
                by_cases hart : (p.startsWith gcsPrefix || fe p) = true
                · have hn : (!p.startsWith gcsPrefix && !fe p) = false := by
                    rcases Bool.or_eq_true_iff.mp hart with h | h <;> simp [h]
                  obtain ⟨f1, f2⟩ := finallyCalls_countP_of_artifact env0 p hart
                  obtain ⟨l1, l2⟩ := clip_loop_calls_countP env0 ms 0
                  rcases hres : clip_creation_loop env0 0 ms with ⟨cds, rest2⟩
                  rcases rest2 with ⟨files, calls⟩
                  rw [hres] at l1 l2
                  simp only [htr, hms, hn, hres, Bool.false_eq_true, if_false]
                  by_cases hcds : cds.isEmpty
                  · simp [hcds, List.countP_append, l1, l2, f1, f2,
                      isCleanupCall, isClipDeleteCall, hart]
                  · simp [hcds, List.countP_append, l1, l2, f1, f2,
                      isCleanupCall, isClipDeleteCall, hart]
                · have hartf : (p.startsWith gcsPrefix || fe p) = false := by
                    revert hart
                    cases hb : (p.startsWith gcsPrefix || fe p) <;> simp
                  obtain ⟨hg1, hg2⟩ := Bool.or_eq_false_iff.mp hartf
                  have hn : (!p.startsWith gcsPrefix && !fe p) = true := by
                    simp [hg1, hg2]
                  simp [htr, hms, hn, hg1, hg2, hartf, finallyCalls,
                    isCleanupCall, isClipDeleteCall]

/-- A fully successful oracle environment for the C6 witness: the clip
extraction itself fails (non-fatally), which must not affect cleanup. -/
def c6Transcript : TranscriptData :=
  { title := "W", duration := 200, video_id := "wid",
    transcript := [{ start := 0, text := "w" }] }

def c6m : VMoment :=
  { start_timestamp := 20, end_timestamp := 50, virality_score := 7/10,
    grade := "C-", justification := "j",
    emotional_keywords := ["k"], urgency_indicators := ["u"] }

def c6FailClip : ClipResultDict :=
  { success := false, output_path := none, output_filename := none,
    file_size := none, resolution := none,
    error := some "Failed to create clip" }

def c6Env : PipelineEnv :=
  { ffmpeg_available := true
    transcript_result := Except.ok (some c6Transcript)
    analysis_result := Except.ok [c6m]
    download_result := Except.ok "/tmp/full.mp4"
    file_exists := fun _ => true
    clip_result := fun _ => c6FailClip }

set_option maxRecDepth 8000 in
/-- Witness for C6 at a concrete environment whose download succeeded. -/
theorem process_video_cleanup_once_witness :
    artifactProduced c6Env = true ∧
    (process_video c6Env "https://youtu.be/w" 45).2.countP isCleanupCall = 1 :=
  ⟨rfl, (process_video_cleanup_once c6Env "https://youtu.be/w" 45).2.2 rfl⟩

/-- C7: whenever the ffmpeg availability probe reports false, the run fails
with the failure attributed to the `ffmpeg_check` stage, and neither the
transcript-fetch capability nor the model-analysis capability is ever
invoked during the run. -/
theorem ffmpeg_unavailable_fails_fast (env : PipelineEnv) (url : String)
    (cd : ℤ) (h : env.ffmpeg_available = false) :
    (process_video env url cd).1.success = false ∧
    (process_video env url cd).1.step_failed = some "ffmpeg_check" ∧
    Call.transcriptFetch ∉ (process_video env url cd).2 ∧
    Call.viralAnalysis ∉ (process_video env url cd).2 := by
  unfold process_video
  rw [h]
  simp [failureResult, finallyCalls]

def c7Env : PipelineEnv :=
  { ffmpeg_available := false
    transcript_result := Except.ok none
    analysis_result := Except.ok []
    download_result := Except.error "offline"
    file_exists := fun _ => false
    clip_result := fun _ =>
      { success := false, output_path := none, output_filename := none,
        file_size := none, resolution := none,
        error := some "Failed to create clip" } }

/-- Witness for C7 at a concrete environment without ffmpeg. -/
theorem ffmpeg_unavailable_fails_fast_witness :
    (process_video c7Env "https://youtu.be/x" 30).1.success = false ∧
    (process_video c7Env "https://youtu.be/x" 30).1.step_failed =
      some "ffmpeg_check" ∧
    Call.transcriptFetch ∉ (process_video c7Env "https://youtu.be/x" 30).2 ∧
    Call.viralAnalysis ∉ (process_video c7Env "https://youtu.be/x" 30).2 :=
  ffmpeg_unavailable_fails_fast c7Env "https://youtu.be/x" 30 rfl

/-- Failure dict returned by `create_clip` when ffmpeg fails (it does not
raise — ffmpeg_processor.py lines 186-199). -/
def failClipDict : ClipResultDict :=
  { success := false, output_path := none, output_filename := none,
    file_size := none, resolution := none,
    error := some "Failed to create clip: FFmpeg failed: boom" }

def okClipDict : ClipResultDict :=
  { success := true, output_path := some "media/clips/viral_clip_2_Bminus.mp4",
    output_filename := some "viral_clip_2_Bminus.mp4", file_size := some 1048576,
    resolution := some "1280x720", error := none }

def c1Transcript : TranscriptData :=
  { title := "T", duration := 120, video_id := "vid",
    transcript := [{ start := 0, text := "a" }, { start := 60, text := "b" }] }

def c1m1 : VMoment :=
  { start_timestamp := 10, end_timestamp := 40, virality_score := 9/10,
    grade := "A-", justification := "strong hook",
    emotional_keywords := ["shocking"], urgency_indicators := ["reveal"] }

def c1m2 : VMoment :=
  { start_timestamp := 60, end_timestamp := 90, virality_score := 8/10,
    grade := "B-", justification := "quotable",
    emotional_keywords := ["funny"], urgency_indicators := ["punchline"] }

def c1Env : PipelineEnv :=
  { ffmpeg_available := true
    transcript_result := Except.ok (some c1Transcript)
    analysis_result := Except.ok [c1m1, c1m2]
    download_result := Except.ok "/tmp/video.mp4"
    file_exists := fun _ => true
    clip_result := fun i => if i = 0 then failClipDict else okClipDict }

set_option maxRecDepth 8000 in
/-- C1 (code-bug evidence): with 2 candidate moments where clip extraction
fails for the first and succeeds for the second (n = 2, k = 1), the run
completes successfully but the result contains 2 clip records, not
n − k = 1: because `create_clip` reports failure by returning a
success=False dict instead of raising, the `except: continue` skip in the
clip loop never fires, and a record (with null output path) is appended
for the failed candidate as well. -/
theorem process_video_records_failed_clip :
    (c1Env.clip_result 0).success = false ∧
    (c1Env.clip_result 1).success = true ∧
    (process_video c1Env "https://youtu.be/x" 30).1.success = true ∧
    (process_video c1Env "https://youtu.be/x" 30).1.total_clips = some 2 ∧
    ((process_video c1Env "https://youtu.be/x" 30).1.clips.getD []).map
        (fun c => c.output_path) =
      [none, some "media/clips/viral_clip_2_Bminus.mp4"] := by
  refine ⟨rfl, rfl, rfl, rfl, rfl⟩

/-! ## C8: the persisted clip_url is always null -/

/-- C8: for every per-clip result dictionary written by the processor, the
background worker persists clip_url = None — it reads the key `clip_path`,
which the processor never writes (the path is under `output_path`) — and
the clip-download endpoint consequently returns 404 for every clip
persisted this way. -/
theorem persisted_clip_url_none_and_404 (c : ClipData) (fe : String → Bool) :
    (save_clip_row (clip_data_dict c)).clip_url = none ∧
    download_clip_status (save_clip_row (clip_data_dict c)).clip_url fe = 404 := by
  have h : (save_clip_row (clip_data_dict c)).clip_url = none := rfl
  refine ⟨h, ?_⟩
  rw [h]
  rfl


def c8SampleClip : ClipData :=
  { rank := 1, start_timestamp := 10, end_timestamp := 40, duration := 30,
    virality_score := 9/10, grade := "A-", justification := "hook",
    emotional_keywords := ["wow"], urgency_indicators := ["now"],
    output_path := some "media/clips/viral_clip_1_Aminus.mp4",
    clip_filename := some "viral_clip_1_Aminus.mp4",
    file_size := some 2048, resolution := some "1280x720" }

/-- Witness for C8 at a concrete clip record with a present output path. -/
theorem persisted_clip_url_none_and_404_witness :
    (save_clip_row (clip_data_dict c8SampleClip)).clip_url = none ∧
    download_clip_status (save_clip_row (clip_data_dict c8SampleClip)).clip_url
      (fun _ => true) = 404 :=
  persisted_clip_url_none_and_404 c8SampleClip (fun _ => true)

/-! ## C9: the success rate is not the A-grade fraction -/

/-- C9 (code-bug evidence): for a job with one clip of stored score 85, the
results view reports a success rate of 100 (it counts stored scores ≥ 80,
per its inline comment "A-grade clips"), but the score-derived grade of 85
is B under the same file's own grade table, so the spec's success rate
(fraction of A+/A/A- clips) is 0. -/
theorem success_rate_counts_b_minus :
    results_success_rate [85] = 100 ∧
    stored_score_grade 85 = "B" ∧
    spec_success_rate [85] = 0 := by
  have hg : stored_score_grade 85 = "B" := by
    unfold stored_score_grade
    norm_num
  refine ⟨?_, hg, ?_⟩
  · unfold results_success_rate
    norm_num
  · unfold spec_success_rate
    norm_num [hg]
    decide

/-! ## C10: submission validation -/

def c10EmptyUrlReq : SubmitRequest :=
  { youtube_url := some "", clip_duration := 30 }

def c10OkEnv : ViewEnv :=
  { gemini_api_key := true, apify_api_key := true, db_ok := true,
    create_ok := true, new_id := 7 }

/-- C10 counterexample: a request with a present (but empty-string) url and
an in-range clip duration is rejected with 400 — Python's `if not
youtube_url` treats the empty string as missing — so "url present and
duration in range implies success" fails as stated. -/
theorem submit_empty_url_rejected :
    c10EmptyUrlReq.youtube_url = some "" ∧
    (5:ℤ) ≤ c10EmptyUrlReq.clip_duration ∧
    c10EmptyUrlReq.clip_duration ≤ 60 ∧
    (process_video_view c10EmptyUrlReq c10OkEnv).status = 400 ∧
    (process_video_view c10EmptyUrlReq c10OkEnv).success = false :=
  ⟨rfl, by decide, by decide, rfl, rfl⟩

/-- C10 (amended): a request whose clip duration is outside [5, 60] or
whose url is missing gets a 400 response with success = false and a
non-empty error string, and no processing record is created; a request
with a present and NON-EMPTY url and an in-range duration (and all
environment and persistence checks passing) gets success = true with the
new processing id. The only amendment: the success side additionally
requires the url to be non-empty, since Python's falsiness check rejects
the empty string. -/
theorem submit_validation_amended :
    (∀ (req : SubmitRequest) (env : ViewEnv),
      (req.youtube_url = none ∨ req.clip_duration < 5 ∨ req.clip_duration > 60) →
      (process_video_view req env).status = 400 ∧
      (process_video_view req env).success = false ∧
      (∃ s, (process_video_view req env).error = some s ∧ s ≠ "") ∧
      (process_video_view req env).record_created = false) ∧
    (∀ (req : SubmitRequest) (env : ViewEnv) (u : String),
      req.youtube_url = some u → u ≠ "" →
      5 ≤ req.clip_duration → req.clip_duration ≤ 60 →
      env.gemini_api_key = true → env.apify_api_key = true →
      env.db_ok = true → env.create_ok = true →
      (process_video_view req env).status = 200 ∧
      (process_video_view req env).success = true ∧
      (process_video_view req env).processing_id = some env.new_id ∧
      (process_video_view req env).record_created = true) := by
  constructor
  · intro req env h
    simp only [process_video_view]
    rcases hurl : req.youtube_url with _ | u
    · exact ⟨rfl, rfl, ⟨"YouTube URL is required", rfl, by decide⟩, rfl⟩
    · rcases h with h | h
      · rw [hurl] at h
        exact absurd h (Option.some_ne_none u)
      · by_cases hu : u = ""
        · rw [hu]
          exact ⟨rfl, rfl, ⟨"YouTube URL is required", rfl, by decide⟩, rfl⟩
        · rw [if_neg (by simp [pyUrlFalsy, hu]), if_pos h]
          exact ⟨rfl, rfl,
            ⟨"Clip duration must be between 5 and 60 seconds", rfl, by decide⟩,
            rfl⟩
  · intro req env u hurl hu h5 h60 hg ha hdb hcr
    simp only [process_video_view, hurl]
    rw [if_neg (by simp [pyUrlFalsy, hu]), if_neg (by omega), hg, ha, hdb, hcr]
    exact ⟨rfl, rfl, rfl, rfl⟩

def c10BadReq : SubmitRequest :=
  { youtube_url := some "https://youtu.be/ok", clip_duration := 3 }

def c10GoodReq : SubmitRequest :=
  { youtube_url := some "https://youtu.be/ok", clip_duration := 30 }

/-- Witness for C10 (amended) at concrete requests: a 3-second duration is
rejected without creating a record, a 30-second one is accepted. -/
theorem submit_validation_amended_witness :
    ((process_video_view c10BadReq c10OkEnv).status = 400 ∧
     (process_video_view c10BadReq c10OkEnv).success = false ∧
     (∃ s, (process_video_view c10BadReq c10OkEnv).error = some s ∧ s ≠ "") ∧
     (process_video_view c10BadReq c10OkEnv).record_created = false) ∧
    ((process_video_view c10GoodReq c10OkEnv).status = 200 ∧
     (process_video_view c10GoodReq c10OkEnv).success = true ∧
     (process_video_view c10GoodReq c10OkEnv).processing_id =
       some c10OkEnv.new_id ∧
     (process_video_view c10GoodReq c10OkEnv).record_created = true) :=
  ⟨submit_validation_amended.1 c10BadReq c10OkEnv (Or.inr (Or.inl (by decide))),
   submit_validation_amended.2 c10GoodReq c10OkEnv "https://youtu.be/ok" rfl
     (by decide) (by decide) (by decide) rfl rfl rfl rfl⟩

end ClipsAI
